import Mathlib

/-!
Shallow embedding of the hubble-install provisioning orchestrator
(package `internal/platform`: darwin.go, linux.go, windows.go, platform.go).

Conventions of the embedding:
* Machine/filesystem state observed through subprocesses (`exec.LookPath`,
  `os.Stat`, subprocess exit statuses, environment variables) is packaged in
  explicit environment structures; each Go function becomes a pure Lean
  function of such an environment.
* Go `error` values are `Option GoError` / `Except GoError _`
  (`none` / `.ok` = nil error).  The distinguished `RebootRequiredError`
  struct of windows.go is the `rebootRequired` constructor.
* Lines printed through the `ui` layer are traced as `List String`
  (the message text handed to `ui.Print*` / `fmt.Println`).
* `windows.go` as shipped contains two concatenated variants of the Windows
  installer; following the spec (§9) the richer first variant (reboot
  detection, nrfutil support) is the one embedded here.
-/

/-- Character used to embed a literal apostrophe inside message strings. -/
def apos : String := (Char.ofNat 39).toString

/-- `MissingDependency` from platform.go: `{Name, Status}`. -/
structure MissingDependency where
  name : String
  status : String
deriving DecidableEq, Repr

/-- `FlashResult` from platform.go: DeviceName (J-Link flash) or HexFilePath (Uniflash). -/
structure FlashResult where
  deviceName : String
  hexFilePath : String
deriving DecidableEq, Repr

/-- Go `error` values produced by the installers.  `rebootRequired` embeds the
distinguished `RebootRequiredError` struct of windows.go; every other error is
`generic` carrying its message. -/
inductive GoError where
  | generic (msg : String)
  | rebootRequired (msg : String)
deriving DecidableEq, Repr

/-- Outcome of running one subprocess (`cmd.Run()`): nil error, an
`exec.ExitError` with an exit code, or some other error with a message. -/
inductive RunOutcome where
  | ok
  | exitErr (code : Nat)
  | otherErr (msg : String)
deriving DecidableEq, Repr

/-! ### String containment (Go `strings.Contains`) -/

/-- `hasPre pat l` is true when `pat` is an initial run of `l`
(character-list version of a prefix test). -/
def hasPre : List Char → List Char → Bool
  | [], _ => true
  | _ :: _, [] => false
  | a :: as, b :: bs => a == b && hasPre as bs

/-- `hasSub pat l` is true when `pat` occurs contiguously inside `l`. -/
def hasSub (pat : List Char) : List Char → Bool
  | [] => pat.isEmpty
  | l@(_ :: rest) => hasPre pat l || hasSub pat rest

/-- Go `strings.Contains s sub`. -/
def goContains (s sub : String) : Bool := hasSub sub.data s.data

/-- Lower-cased character list of a string (Go `strings.ToLower` on ASCII). -/
def lowerChars (s : String) : List Char := s.data.map Char.toLower

/-- Case-insensitive containment:
`strings.Contains(strings.ToLower(s), strings.ToLower(sub))`. -/
def goContainsCI (s sub : String) : Bool := hasSub (lowerChars sub) (lowerChars s)

/-- Drop leading whitespace characters. -/
def dropWS : List Char → List Char
  | [] => []
  | c :: rest => if c.isWhitespace then dropWS rest else c :: rest

/-- Go `strings.TrimSpace`: strip whitespace from both ends. -/
def goTrimSpace (s : String) : String :=
  ⟨(dropWS (dropWS s.data).reverse).reverse⟩

/-! ### Windows: `findUVPath` (windows.go lines 607-651) -/

/-- Environment observed by `WindowsInstaller.findUVPath`. -/
structure WinUVEnv where
  /-- Result of `exec.LookPath("uv")`. -/
  lookPathUV : Option String
  /-- Value of the `ChocolateyInstall` environment variable (`""` = unset). -/
  chocolateyInstall : String
  /-- Whether `os.Stat` on a path succeeds. -/
  statExists : String → Bool
  /-- `cmd.Output()` of the PowerShell query over the Chocolatey lib
  directory: `none` when the command errors, otherwise the raw output. -/
  psUVQueryOut : Option String
  /-- Value of the `LOCALAPPDATA` environment variable. -/
  localAppData : String
  /-- Value of the `USERPROFILE` environment variable. -/
  userProfile : String

/-- Chocolatey install root with the hard-coded fallback. -/
def winChocoInstallDir (env : WinUVEnv) : String :=
  if env.chocolateyInstall = "" then "C:\\ProgramData\\chocolatey" else env.chocolateyInstall

/-- `findUVPath`: four resolution methods in order, first success wins. -/
def findUVPath (env : WinUVEnv) : Except String String :=
  match env.lookPathUV with
  | some uvPath => .ok uvPath
  | none =>
    let chocoBin := winChocoInstallDir env ++ "\\bin\\uv.exe"
    if env.statExists chocoBin then .ok chocoBin
    else
      let psResult : Option String :=
        match env.psUVQueryOut with
        | some output =>
          if output.length > 0 then
            let uvPath := goTrimSpace output
            if uvPath != "" then
              if env.statExists uvPath then some uvPath else none
            else none
          else none
        | none => none
      match psResult with
      | some uvPath => .ok uvPath
      | none =>
        let path1 := env.localAppData ++ "\\Programs\\uv\\uv.exe"
        let path2 := env.userProfile ++ "\\.local\\bin\\uv.exe"
        if env.statExists path1 then .ok path1
        else if env.statExists path2 then .ok path2
        else .error "uv executable not found in any expected location"

/-- Strategy 1 of `findUVPath`: standard PATH lookup. -/
def uvStrategy1 (env : WinUVEnv) : Option String := env.lookPathUV

/-- Strategy 2: the Chocolatey bin (shim) directory. -/
def uvStrategy2 (env : WinUVEnv) : Option String :=
  let chocoBin := winChocoInstallDir env ++ "\\bin\\uv.exe"
  if env.statExists chocoBin then some chocoBin else none

/-- Strategy 3: PowerShell query of installed Chocolatey package directories. -/
def uvStrategy3 (env : WinUVEnv) : Option String :=
  match env.psUVQueryOut with
  | some output =>
    if output.length > 0 then
      let uvPath := goTrimSpace output
      if uvPath != "" then
        if env.statExists uvPath then some uvPath else none
      else none
    else none
  | none => none

/-- Strategy 4: hard-coded per-user install directories. -/
def uvStrategy4 (env : WinUVEnv) : Option String :=
  let path1 := env.localAppData ++ "\\Programs\\uv\\uv.exe"
  let path2 := env.userProfile ++ "\\.local\\bin\\uv.exe"
  if env.statExists path1 then some path1
  else if env.statExists path2 then some path2
  else none

/-- First defined value in a list of optional results. -/
def firstSome : List (Option String) → Option String
  | [] => none
  | some x :: _ => some x
  | none :: rest => firstSome rest

/-! ### Windows: `runChocoInstall` (windows.go lines 572-605) -/

/-- `runChocoInstall`: runs `choco install <pkg> -y`; exit code 3010 is
translated to the distinguished `RebootRequiredError`. -/
def runChocoInstall (chocoRun : String → RunOutcome) (pkg : String) : Option GoError :=
  match chocoRun pkg with
  | .ok => none
  | .exitErr code =>
    if code = 3010 then
      some (.rebootRequired ("installation of " ++ pkg ++ " requires a system reboot"))
    else
      some (.generic ("exit status " ++ toString code))
  | .otherErr msg => some (.generic msg)

/-! ### macOS installer (darwin.go) -/

/-- Observable side effects of the package-manager bootstrap
(`DarwinInstaller.InstallPackageManager` and its helpers). -/
inductive PMEffect where
  /-- Interactive `sudo -v` password prompt. -/
  | sudoPrompt
  /-- Running the official Homebrew install script. -/
  | runInstallScript
  /-- `os.Setenv("PATH", newPath)`. -/
  | setPath (newPath : String)
  /-- The `brew --version` verification subprocess. -/
  | runVersionQuery
deriving DecidableEq, Repr

/-- Environment observed by the macOS installer. -/
structure DarwinEnv where
  /-- Result of `exec.LookPath` for a command name. -/
  lookPath : String → Option String
  /-- Current value of the `PATH` environment variable. -/
  path : String
  /-- Whether `sudo -n true` succeeds (sudo credentials already cached). -/
  sudoCheckOk : Bool
  /-- Whether the interactive `sudo -v` prompt succeeds. -/
  sudoPromptOk : Bool
  /-- Whether the Homebrew install-script subprocess succeeds. -/
  installScriptOk : Bool
  /-- Whether `os.Stat("/opt/homebrew/bin/brew")` succeeds. -/
  statBrewOpt : Bool
  /-- Whether `os.Stat("/usr/local/bin/brew")` succeeds. -/
  statBrewUsrLocal : Bool
  /-- `commandExists("brew")` as re-checked after a fresh install plus PATH
  update (the process environment has drifted by then). -/
  brewOnPathAfterInstall : Bool
  /-- Whether the `brew --version` verification subprocess succeeds. -/
  brewVersionOk : Bool
  /-- Whether `brew install <pkg>` succeeds. -/
  brewInstallOk : String → Bool
  /-- Whether `uv tool install nrfutil` succeeds. -/
  uvToolInstallOk : Bool
  /-- `cmd.Run()` of the flash subprocess: `none` = exit 0, otherwise the
  error message. -/
  flashRunErr : Option String
  /-- `os.Getwd()`. -/
  cwd : String

/-- `commandExists`: `exec.LookPath(cmd)` returned no error. -/
def darwinCommandExists (env : DarwinEnv) (c : String) : Bool := (env.lookPath c).isSome

/-- `ensureSudoAccess` (darwin.go lines 34-54): no-op when credentials are
cached, otherwise one interactive prompt. -/
def darwinEnsureSudoAccess (env : DarwinEnv) : List PMEffect × Option GoError :=
  if env.sudoCheckOk then ([], none)
  else if env.sudoPromptOk then ([.sudoPrompt], none)
  else ([.sudoPrompt], some (.generic "failed to obtain sudo access"))

/-- `setupBrewPath` (darwin.go lines 310-331): prepend the detected Homebrew
bin directory to PATH when absent. -/
def darwinSetupBrewPath (env : DarwinEnv) : List PMEffect × Option GoError :=
  if env.statBrewOpt then
    (if goContains env.path "/opt/homebrew/bin" then []
     else [.setPath ("/opt/homebrew/bin:" ++ env.path)], none)
  else if env.statBrewUsrLocal then
    (if goContains env.path "/usr/local/bin" then []
     else [.setPath ("/usr/local/bin:" ++ env.path)], none)
  else ([], some (.generic "brew not found in expected locations"))

/-- `DarwinInstaller.InstallPackageManager` (darwin.go lines 99-144), with the
full trace of install side effects.  The early return when `brew` is already
on PATH performs no subprocess beyond the lookup itself. -/
def darwinInstallPackageManager (env : DarwinEnv) : List PMEffect × Option GoError :=
  if darwinCommandExists env "brew" then ([], none)
  else
    match darwinEnsureSudoAccess env with
    | (sudoFx, some e) => (sudoFx, some e)
    | (sudoFx, none) =>
      if !env.installScriptOk then
        (sudoFx ++ [.runInstallScript], some (.generic "failed to install Homebrew"))
      else
        match darwinSetupBrewPath env with
        | (pathFx, some _) =>
          (sudoFx ++ [.runInstallScript] ++ pathFx,
           some (.generic "homebrew installation completed but could not find brew binary"))
        | (pathFx, none) =>
          if !env.brewOnPathAfterInstall then
            (sudoFx ++ [.runInstallScript] ++ pathFx,
             some (.generic "homebrew installation completed but brew command not found in PATH"))
          else if env.brewVersionOk then
            (sudoFx ++ [.runInstallScript] ++ pathFx ++ [.runVersionQuery], none)
          else
            (sudoFx ++ [.runInstallScript] ++ pathFx ++ [.runVersionQuery],
             some (.generic "homebrew installed but not functioning correctly"))

/-- The body of one per-dependency goroutine of
`DarwinInstaller.InstallDependencies` (darwin.go lines 162-209): `none` when
the task sends nothing on the error channel, otherwise the sent error.
Dependency names outside the switch are ignored. -/
def darwinInstallDep (env : DarwinEnv) (dep : String) : Option GoError :=
  if dep = "uv" then
    if darwinCommandExists env "uv" then none
    else if env.brewInstallOk "uv" then none
    else some (.generic "failed to install uv")
  else if dep = "nrfutil" then
    if darwinCommandExists env "nrfutil" then none
    else
      match env.lookPath "uv" with
      | none => some (.generic "uv not found in PATH (required to install nrfutil)")
      | some _ => if env.uvToolInstallOk then none else some (.generic "failed to install nrfutil")
  else if dep = "segger-jlink" then
    if darwinCommandExists env "JLinkExe" then none
    else if env.brewInstallOk "segger-jlink" then none
    else some (.generic "failed to install segger-jlink")
  else none

/-- One task is spawned per requested dependency; `wg.Wait()` joins them all,
so the trace of completed tasks always covers the whole list. -/
def darwinInstallTasks (env : DarwinEnv) (deps : List String) :
    List (String × Option GoError) :=
  deps.map (fun dep => (dep, darwinInstallDep env dep))

/-- The multiset of errors sent on the error channel (here listed in `deps`
order; the true arrival order is scheduler-dependent). -/
def darwinTaskErrors (env : DarwinEnv) (deps : List String) : List GoError :=
  deps.filterMap (darwinInstallDep env)

/-- `DarwinInstaller.InstallDependencies` (darwin.go lines 147-224).
`arrival` is the order in which the collection loop drains the error channel
after `wg.Wait()` — the one scheduler-dependent input, constrained by the
theorems to be a permutation of `darwinTaskErrors`.  The loop returns the
first drained error, if any. -/
def darwinInstallDependencies (env : DarwinEnv) (arrival : List GoError) :
    Option GoError :=
  if !(darwinCommandExists env "brew") then
    match (darwinInstallPackageManager env).2 with
    | some e => some e
    | none => arrival.head?
  else arrival.head?

/-- Per-dependency case of `DarwinInstaller.CheckPrerequisites`
(darwin.go lines 69-93): zero or one missing entry; unrecognized names hit no
switch case. -/
def darwinCheckDep (env : DarwinEnv) (dep : String) : List MissingDependency :=
  if dep = "uv" then
    if darwinCommandExists env "uv" then [] else [⟨"uv", "Not installed"⟩]
  else if dep = "nrfutil" then
    if darwinCommandExists env "nrfutil" then [] else [⟨"nrfutil", "Not installed"⟩]
  else if dep = "segger-jlink" then
    if darwinCommandExists env "JLinkExe" then [] else [⟨"segger-jlink", "Not installed"⟩]
  else []

/-- `DarwinInstaller.CheckPrerequisites` (darwin.go lines 57-96): Homebrew is
always checked first, then each requested dependency in order; the returned
error is always nil. -/
def darwinCheckPrerequisites (env : DarwinEnv) (requiredDeps : List String) :
    List MissingDependency × Option GoError :=
  ((if darwinCommandExists env "brew" then [] else [⟨"Homebrew", "Not installed"⟩]) ++
    requiredDeps.flatMap (darwinCheckDep env), none)

/-! ### Flashing-tool argument vectors (External Tool Invoker) -/

/-- `filepath.Join` on the Unix platforms (clean directory, relative file). -/
def joinPath (dir file : String) : String := dir ++ "/" ++ file

/-- `filepath.Join` on Windows. -/
def winJoinPath (dir file : String) : String := dir ++ "\\" ++ file

/-- Hex file name choice shared by all `GenerateHexFile` implementations:
device name when provided, board name otherwise. -/
def hexFileName (board deviceName : String) : String :=
  if deviceName ≠ "" then deviceName ++ ".hex" else board ++ ".hex"

/-- Argument vector of `DarwinInstaller.FlashBoard` (darwin.go line 237). -/
def darwinFlashArgs (orgID apiToken board deviceName : String) : List String :=
  let args := ["tool", "run", "--refresh", "--from", "pyhubbledemo", "hubbledemo", "flash",
    board, "-o", orgID, "-t", apiToken]
  if deviceName ≠ "" then args ++ ["-n", deviceName] else args

/-- Argument vector of `LinuxInstaller.FlashBoard` (linux source line 182). -/
def linuxFlashArgs (orgID apiToken board deviceName : String) : List String :=
  let args := ["tool", "run", "--from", "pyhubbledemo", "hubbledemo", "flash",
    board, "-o", orgID, "-t", apiToken]
  if deviceName ≠ "" then args ++ ["-n", deviceName] else args

/-- Argument vector of `WindowsInstaller.FlashBoard` (windows.go line 405). -/
def windowsFlashArgs (orgID apiToken board deviceName : String) : List String :=
  let args := ["tool", "run", "--refresh", "--from", "pyhubbledemo", "hubbledemo", "flash",
    board, "-o", orgID, "-t", apiToken]
  if deviceName ≠ "" then args ++ ["-n", deviceName] else args

/-- Argument vector of `DarwinInstaller.GenerateHexFile` (darwin.go line 284). -/
def darwinGenerateHexArgs (orgID apiToken board deviceName cwd : String) : List String :=
  let hexFilePath := joinPath cwd (hexFileName board deviceName)
  let args := ["tool", "run", "--refresh", "--from", "pyhubbledemo", "hubbledemo", "flash",
    board, "-o", orgID, "-t", apiToken, "-f", hexFilePath]
  if deviceName ≠ "" then args ++ ["-n", deviceName] else args

/-- Argument vector of `LinuxInstaller.GenerateHexFile` (linux source line 229). -/
def linuxGenerateHexArgs (orgID apiToken board deviceName cwd : String) : List String :=
  let hexFilePath := joinPath cwd (hexFileName board deviceName)
  let args := ["tool", "run", "--from", "pyhubbledemo", "hubbledemo", "flash",
    board, "-o", orgID, "-t", apiToken, "-f", hexFilePath]
  if deviceName ≠ "" then args ++ ["-n", deviceName] else args

/-- Argument vector of `WindowsInstaller.GenerateHexFile` (windows.go line 494). -/
def windowsGenerateHexArgs (orgID apiToken board deviceName cwd : String) : List String :=
  let hexFilePath := winJoinPath cwd (hexFileName board deviceName)
  let args := ["tool", "run", "--refresh", "--from", "pyhubbledemo", "hubbledemo", "flash",
    board, "-o", orgID, "-t", apiToken, "-f", hexFilePath]
  if deviceName ≠ "" then args ++ ["-n", deviceName] else args

/-- `DarwinInstaller.FlashBoard` (darwin.go lines 227-258): traced `ui` output
and the returned result. -/
def darwinFlashBoard (env : DarwinEnv) (_orgID _apiToken board deviceName : String) :
    List String × Except GoError FlashResult :=
  let header := ["Flashing board: " ++ board, "This may take 10-15 seconds..."]
  match env.lookPath "uv" with
  | none => (header, .error (.generic "uv not found in PATH"))
  | some _ =>
    match env.flashRunErr with
    | some errStr => (header, .error (.generic ("flash command failed: " ++ errStr)))
    | none =>
      let resultDeviceName := if deviceName = "" then "your-device" else deviceName
      (header ++ ["Board " ++ board ++ " flashed successfully!"],
       .ok { deviceName := resultDeviceName, hexFilePath := "" })

/-! ### Linux installer (linux source, src/unnamed/part_000) -/

/-- `PackageManager` enum from the Linux installer. -/
inductive LinuxPM where
  | unknown
  | apt
  | yum
  | dnf
deriving DecidableEq, Repr

/-- Environment observed by the Linux installer. -/
structure LinuxEnv where
  /-- Package manager detected at construction time. -/
  pkgManager : LinuxPM
  /-- Result of `exec.LookPath` for a command name. -/
  lookPath : String → Option String
  /-- `cmd.Run()` of the flash subprocess: `none` = exit 0, otherwise the
  error message. -/
  flashRunErr : Option String
  /-- `os.Getwd()`. -/
  cwd : String

/-- The manual-install command lines printed for the detected package manager
(the inner `switch l.pkgManager` of `CheckPrerequisites`, lines 92-102). -/
def linuxJLinkCommands (pm : LinuxPM) : List String :=
  match pm with
  | .apt => ["  sudo dpkg -i JLink_Linux_*.deb"]
  | .dnf => ["  sudo dnf install JLink_Linux_*.rpm"]
  | .yum => ["  sudo yum install JLink_Linux_*.rpm"]
  | .unknown => ["  tar xzf JLink_Linux_*.tgz -C ~/opt/SEGGER",
      "  sudo cp ~/opt/SEGGER/JLink*/99-jlink.rules /etc/udev/rules.d/"]

/-- Everything printed when SEGGER J-Link is found missing on Linux
(lines 85-104); blank lines come from `fmt.Println("")`. -/
def linuxJLinkRemediation (pm : LinuxPM) : List String :=
  ["",
   "SEGGER J-Link was not found",
   "Due to license requirements, it must be downloaded manually from:",
   "  https://www.segger.com/downloads/jlink/",
   "",
   "After downloading, install with:"] ++
  linuxJLinkCommands pm ++
  [""]

/-- The dependency loop of `LinuxInstaller.CheckPrerequisites` (lines 73-108),
threading the missing list and the printed output. -/
def linuxCheckLoop (env : LinuxEnv) :
    List String → List MissingDependency → List String →
    List String × Except GoError (List MissingDependency)
  | [], missing, out => (out, .ok missing)
  | dep :: rest, missing, out =>
    if dep = "uv" then
      if (env.lookPath "uv").isSome then linuxCheckLoop env rest missing out
      else linuxCheckLoop env rest (missing ++ [⟨"uv", "Not installed"⟩]) out
    else if dep = "segger-jlink" then
      if (env.lookPath "JLinkExe").isSome then linuxCheckLoop env rest missing out
      else (out ++ linuxJLinkRemediation env.pkgManager,
        .error (.generic "J-Link must be installed before running this installer"))
    else linuxCheckLoop env rest missing out

/-- `LinuxInstaller.CheckPrerequisites` (lines 64-111): printed output and
either the missing list or a hard error. -/
def linuxCheckPrerequisites (env : LinuxEnv) (requiredDeps : List String) :
    List String × Except GoError (List MissingDependency) :=
  if env.pkgManager = .unknown then
    ([], .error (.generic "unsupported Linux distribution - only apt, dnf, and yum are supported"))
  else linuxCheckLoop env requiredDeps [] []

/-- `LinuxInstaller.FlashBoard` (lines 172-203). -/
def linuxFlashBoard (env : LinuxEnv) (_orgID _apiToken board deviceName : String) :
    List String × Except GoError FlashResult :=
  let header := ["Flashing board: " ++ board, "This may take 10-15 seconds..."]
  match env.lookPath "uv" with
  | none => (header, .error (.generic "uv not found in PATH"))
  | some _ =>
    match env.flashRunErr with
    | some errStr => (header, .error (.generic ("flash command failed: " ++ errStr)))
    | none =>
      let resultDeviceName := if deviceName = "" then "your-device" else deviceName
      (header ++ ["Board " ++ board ++ " flashed successfully!"],
       .ok { deviceName := resultDeviceName, hexFilePath := "" })

/-! ### Windows installer: prerequisites check with PATH state (windows.go) -/

/-- Environment observed by `WindowsInstaller.CheckPrerequisites` and its
helpers.  PATH is threaded explicitly because `nrfutilInstalled` can mutate
it mid-check. -/
structure WinCheckEnv where
  /-- `exec.LookPath(cmd)` succeeds given the current value of PATH. -/
  lookupOn : String → String → Bool
  /-- Value of the `LOCALAPPDATA` environment variable. -/
  localAppData : String
  /-- Whether `os.Stat` on a path succeeds. -/
  statExists : String → Bool
  /-- PATH value when the check starts. -/
  initPath : String

/-- Default nrfutil install directory `%LOCALAPPDATA%\hubble\nrfutil`. -/
def winNrfutilDir (env : WinCheckEnv) : String :=
  env.localAppData ++ "\\hubble\\nrfutil"

/-- Default nrfutil binary path. -/
def winNrfutilExe (env : WinCheckEnv) : String :=
  winNrfutilDir env ++ "\\nrfutil.exe"

/-- `ensureNRFUtilPath` (windows.go lines 706-713): prepend the default
nrfutil directory to PATH unless PATH already contains it
(case-insensitively); returns the new PATH. -/
def windowsEnsureNRFUtilPath (env : WinCheckEnv) (path : String) : String :=
  if goContainsCI path (winNrfutilDir env) then path
  else winNrfutilDir env ++ ";" ++ path

/-- `nrfutilInstalled` (windows.go lines 691-703): PATH lookup first, then the
default install location — the latter hit also mutates PATH. -/
def windowsNrfutilInstalled (env : WinCheckEnv) (path : String) : Bool × String :=
  if env.lookupOn path "nrfutil" then (true, path)
  else if env.statExists (winNrfutilExe env) then (true, windowsEnsureNRFUtilPath env path)
  else (false, path)

/-- One iteration of the dependency loop of
`WindowsInstaller.CheckPrerequisites` (lines 125-143), threading PATH. -/
def windowsCheckStep (env : WinCheckEnv) (acc : List MissingDependency × String)
    (dep : String) : List MissingDependency × String :=
  let (missing, path) := acc
  if dep = "uv" then
    if env.lookupOn path "uv" then (missing, path)
    else (missing ++ [⟨"uv", "Not installed"⟩], path)
  else if dep = "nrfutil" then
    match windowsNrfutilInstalled env path with
    | (true, newPath) => (missing, newPath)
    | (false, newPath) => (missing ++ [⟨"nrfutil", "Not installed"⟩], newPath)
  else (missing, path)

/-- `WindowsInstaller.CheckPrerequisites` (windows.go lines 113-146), first
(richer) variant: missing list plus the final PATH value; the returned Go
error is always nil. -/
def windowsCheckPrerequisites (env : WinCheckEnv) (requiredDeps : List String) :
    List MissingDependency × String :=
  requiredDeps.foldl (windowsCheckStep env)
    ((if env.lookupOn env.initPath "choco" then []
      else [⟨"Chocolatey", "Not installed"⟩]), env.initPath)

/-! ### Windows installer: package-manager bootstrap (windows.go lines 282-327) -/

/-- Environment observed by `WindowsInstaller.InstallPackageManager` and its
helpers `ensureAdminAccess` and `setupChocoPath`. -/
structure WinPMEnv where
  /-- Result of `exec.LookPath` for a command name. -/
  lookPath : String → Option String
  /-- Whether the `net session` administrator probe succeeds. -/
  adminOk : Bool
  /-- Whether the PowerShell Chocolatey install-script subprocess succeeds. -/
  installScriptOk : Bool
  /-- Value of the `ChocolateyInstall` environment variable (`""` = unset). -/
  chocolateyInstall : String
  /-- Whether `os.Stat` on a path succeeds. -/
  statExists : String → Bool
  /-- Current value of the `PATH` environment variable. -/
  path : String
  /-- `commandExists("choco")` as re-checked after a fresh install plus PATH
  update (the process environment has drifted by then). -/
  chocoOnPathAfterInstall : Bool
  /-- Whether the `choco --version` verification subprocess succeeds. -/
  chocoVersionOk : Bool

/-- `ensureAdminAccess` (windows.go lines 100-110): the `net session` probe,
failing with an error when not elevated. -/
def windowsEnsureAdminAccess (env : WinPMEnv) : Option GoError :=
  if env.adminOk then none else some (.generic "administrator privileges required")

/-- `setupChocoPath` (windows.go lines 547-569): error when the Chocolatey
bin directory does not exist, otherwise prepend it to PATH when absent. -/
def windowsSetupChocoPath (env : WinPMEnv) : List PMEffect × Option GoError :=
  let chocoInstall :=
    if env.chocolateyInstall = "" then "C:\\ProgramData\\chocolatey" else env.chocolateyInstall
  let chocoPath := chocoInstall ++ "\\bin"
  if !(env.statExists chocoPath) then
    ([], some (.generic ("choco not found in expected location: " ++ chocoPath)))
  else
    (if goContains env.path chocoPath then []
     else [.setPath (chocoPath ++ ";" ++ env.path)], none)

/-- `WindowsInstaller.InstallPackageManager` (windows.go lines 282-327), with
the full trace of install side effects.  Like the macOS bootstrapper, the
early return when `choco` is already on PATH performs no subprocess beyond
the lookup itself; the `choco --version` verification runs only after a
fresh install. -/
def windowsInstallPackageManager (env : WinPMEnv) : List PMEffect × Option GoError :=
  if (env.lookPath "choco").isSome then ([], none)
  else
    match windowsEnsureAdminAccess env with
    | some e => ([], some e)
    | none =>
      if !env.installScriptOk then
        ([.runInstallScript], some (.generic "failed to install Chocolatey"))
      else
        match windowsSetupChocoPath env with
        | (pathFx, some _) =>
          ([.runInstallScript] ++ pathFx,
           some (.generic "chocolatey installation completed but could not find choco binary"))
        | (pathFx, none) =>
          if !env.chocoOnPathAfterInstall then
            ([.runInstallScript] ++ pathFx,
             some (.generic "chocolatey installation completed but choco command not found in PATH"))
          else if env.chocoVersionOk then
            ([.runInstallScript] ++ pathFx ++ [.runVersionQuery], none)
          else
            ([.runInstallScript] ++ pathFx ++ [.runVersionQuery],
             some (.generic "chocolatey installed but not functioning correctly"))

/-! ### Windows installer: FlashBoard with error classification (windows.go) -/

/-- Environment observed by `WindowsInstaller.FlashBoard`. -/
structure WinFlashEnv where
  /-- Environment of the `findUVPath` helper. -/
  uvEnv : WinUVEnv
  /-- `cmd.Run()` of the flash subprocess: `none` = exit 0, otherwise
  `err.Error()`. -/
  runErr : Option String

/-- The guidance printed when `findUVPath` fails (windows.go lines 387-400). -/
def windowsUVNotFoundLines : List String :=
  ["",
   "Could not locate the " ++ apos ++ "uv" ++ apos ++ " executable",
   "",
   "This usually happens because:",
   "  1. The PATH environment variable hasn" ++ apos ++ "t been updated in this session",
   "  2. A system reboot may be required",
   "",
   "To fix this:",
   "  1. Close this terminal/PowerShell window",
   "  2. Open a NEW terminal/PowerShell window",
   "  3. Run this installer again",
   "",
   "If that doesn" ++ apos ++ "t work, try rebooting your computer and running again.",
   ""]

/-- The four substrings treated as signs of a DNS/network failure
(windows.go lines 418-421). -/
def isNetworkErrorText (s : String) : Bool :=
  goContains s "dns error" || goContains s "No such host" ||
  goContains s "client error" || goContains s "Failed to download"

/-- The network-remediation block printed by `WindowsInstaller.FlashBoard`
(windows.go lines 422-441). -/
def windowsFlashNetworkLines : List String :=
  ["",
   "Network connectivity error during flashing",
   "",
   "The flashing tool failed to download required files from the internet.",
   "",
   "Possible causes:",
   "  • Network connectivity issues",
   "  • Corporate firewall or proxy blocking GitHub",
   "  • DNS resolution problems",
   "  • Antivirus or security software blocking downloads",
   "",
   "Troubleshooting steps:",
   "  1. Check your internet connection",
   "  2. Try accessing https://github.com in a browser",
   "  3. If behind a corporate firewall, configure proxy settings:",
   "     $env:HTTP_PROXY = " ++ apos ++ "http://proxy.company.com:8080" ++ apos,
   "     $env:HTTPS_PROXY = " ++ apos ++ "http://proxy.company.com:8080" ++ apos,
   "  4. Temporarily disable antivirus/firewall and try again",
   "  5. Try again in a few minutes (GitHub may be temporarily unavailable)",
   ""]

/-- `WindowsInstaller.FlashBoard` (windows.go lines 380-453): traced output
and the returned result.  On a failed run the remediation block is printed
only for network-looking error text; the returned error wraps the run error
identically in both cases. -/
def windowsFlashBoard (env : WinFlashEnv) (_orgID _apiToken board deviceName : String) :
    List String × Except GoError FlashResult :=
  let header := ["Flashing board: " ++ board, "This may take 10-15 seconds..."]
  match findUVPath env.uvEnv with
  | .error e =>
    (header ++ windowsUVNotFoundLines, .error (.generic ("uv executable not found: " ++ e)))
  | .ok _ =>
    match env.runErr with
    | some errStr =>
      (header ++ (if isNetworkErrorText errStr then windowsFlashNetworkLines else []),
       .error (.generic ("flash command failed: " ++ errStr)))
    | none =>
      let resultDeviceName := if deviceName = "" then "your-device" else deviceName
      (header ++ ["Board " ++ board ++ " flashed successfully!"],
       .ok { deviceName := resultDeviceName, hexFilePath := "" })

/-! ### Concrete fixture environments used by witnesses and counterexamples -/

/-- Fixture for `findUVPath`: PATH lookup and the Chocolatey shim fail, the
PowerShell lib query succeeds. -/
def uvEnvM3 : WinUVEnv where
  lookPathUV := none
  chocolateyInstall := ""
  statExists := fun p =>
    p = "C:\\ProgramData\\chocolatey\\lib\\uv.1.0\\tools\\uv.exe" ||
    p = "C:\\Users\\dev\\Programs\\uv\\uv.exe"
  psUVQueryOut := some "C:\\ProgramData\\chocolatey\\lib\\uv.1.0\\tools\\uv.exe"
  localAppData := "C:\\Users\\dev"
  userProfile := "C:\\Users\\dev"

/-- Fixture choco runner whose install subprocess exits with code 3010. -/
def chocoRun3010 : String → RunOutcome := fun _ => .exitErr 3010

/-- macOS fixture: Homebrew present, every vendor tool absent and every
install subprocess failing. -/
def dEnvFail : DarwinEnv where
  lookPath := fun c => if c = "brew" then some "/usr/local/bin/brew" else none
  path := "/usr/local/bin:/usr/bin:/bin"
  sudoCheckOk := true
  sudoPromptOk := true
  installScriptOk := true
  statBrewOpt := false
  statBrewUsrLocal := true
  brewOnPathAfterInstall := true
  brewVersionOk := true
  brewInstallOk := fun _ => false
  uvToolInstallOk := false
  flashRunErr := none
  cwd := "/home/dev"

/-- macOS fixture: every tool present and every subprocess succeeding. -/
def dEnvAll : DarwinEnv where
  lookPath := fun c =>
    if ["brew", "uv", "nrfutil", "JLinkExe"].contains c then some ("/usr/local/bin/" ++ c)
    else none
  path := "/usr/local/bin:/usr/bin:/bin"
  sudoCheckOk := true
  sudoPromptOk := true
  installScriptOk := true
  statBrewOpt := false
  statBrewUsrLocal := true
  brewOnPathAfterInstall := true
  brewVersionOk := true
  brewInstallOk := fun _ => true
  uvToolInstallOk := true
  flashRunErr := none
  cwd := "/home/dev"

/-- macOS fixture: Homebrew on PATH but non-functional (`brew --version`
would fail). -/
def pmBadEnv : DarwinEnv where
  lookPath := fun c => if c = "brew" then some "/usr/local/bin/brew" else none
  path := "/usr/local/bin:/usr/bin:/bin"
  sudoCheckOk := true
  sudoPromptOk := true
  installScriptOk := true
  statBrewOpt := false
  statBrewUsrLocal := true
  brewOnPathAfterInstall := true
  brewVersionOk := false
  brewInstallOk := fun _ => true
  uvToolInstallOk := true
  flashRunErr := none
  cwd := "/home/dev"

/-- Linux fixture: apt system with no tool installed. -/
def lEnvAPT : LinuxEnv where
  pkgManager := .apt
  lookPath := fun _ => none
  flashRunErr := none
  cwd := "/home/dev"

/-- Windows fixture: Chocolatey on PATH but non-functional (`choco --version`
would fail). -/
def wPMBadEnv : WinPMEnv where
  lookPath := fun c => if c = "choco" then some "C:\\ProgramData\\chocolatey\\bin\\choco.exe" else none
  adminOk := true
  installScriptOk := true
  chocolateyInstall := ""
  statExists := fun _ => true
  path := "C:\\Windows\\system32"
  chocoOnPathAfterInstall := true
  chocoVersionOk := false

/-- Windows fixture: nothing on PATH, nrfutil present at its default install
location. -/
def wCheckEnv : WinCheckEnv where
  lookupOn := fun _ _ => false
  localAppData := "C:\\AD"
  statExists := fun p => p = "C:\\AD\\hubble\\nrfutil\\nrfutil.exe"
  initPath := "C:\\W"

/-- Windows fixture: uv resolvable, flash subprocess failing with
DNS-looking error text. -/
def wFlashDNS : WinFlashEnv where
  uvEnv :=
    { lookPathUV := some "C:\\uv.exe"
      chocolateyInstall := ""
      statExists := fun _ => false
      psUVQueryOut := none
      localAppData := "C:\\AD"
      userProfile := "C:\\U" }
  runErr := some "dns error: no such host"

/-! ## Theorems -/

/-- C2: `findUVPath` tries its four strategies in a fixed order and returns the
first strategy's result; the `ExecutableNotFound`-style error appears exactly
when all four strategies fail. -/
theorem findUVPath_strategy_order (env : WinUVEnv) :
    findUVPath env =
      (match firstSome [uvStrategy1 env, uvStrategy2 env, uvStrategy3 env, uvStrategy4 env] with
       | some p => Except.ok p
       | none => Except.error "uv executable not found in any expected location") := by
  unfold findUVPath uvStrategy1 uvStrategy2 uvStrategy3 uvStrategy4 firstSome
  cases h1 : env.lookPathUV with
  | some p => rfl
  | none =>
    by_cases h2 : env.statExists (winChocoInstallDir env ++ "\\bin\\uv.exe")
    · simp [h2, firstSome]
    · simp only [h2, if_false, Bool.false_eq_true, ite_false]
      cases h3 : env.psUVQueryOut with
      | some output =>
        by_cases hlen : output.length > 0
        · by_cases hne : goTrimSpace output != ""
          · by_cases hst : env.statExists (goTrimSpace output)
            · simp [hlen, hne, hst, firstSome]
            · simp only [hlen, hne, hst, if_true, if_false, Bool.false_eq_true, ite_false,
                ite_true, gt_iff_lt]
              by_cases h4 : env.statExists (env.localAppData ++ "\\Programs\\uv\\uv.exe") <;>
                by_cases h5 : env.statExists (env.userProfile ++ "\\.local\\bin\\uv.exe") <;>
                simp [h4, h5, firstSome]
          · simp only [hlen, hne, if_false, Bool.false_eq_true, ite_false, ite_true, gt_iff_lt]
            by_cases h4 : env.statExists (env.localAppData ++ "\\Programs\\uv\\uv.exe") <;>
              by_cases h5 : env.statExists (env.userProfile ++ "\\.local\\bin\\uv.exe") <;>
              simp [h4, h5, firstSome, hne, hlen]
        · simp only [hlen, if_false, Bool.false_eq_true, ite_false, gt_iff_lt]
          by_cases h4 : env.statExists (env.localAppData ++ "\\Programs\\uv\\uv.exe") <;>
            by_cases h5 : env.statExists (env.userProfile ++ "\\.local\\bin\\uv.exe") <;>
            simp [h4, h5, firstSome, hlen]
      | none =>
        by_cases h4 : env.statExists (env.localAppData ++ "\\Programs\\uv\\uv.exe") <;>
          by_cases h5 : env.statExists (env.userProfile ++ "\\.local\\bin\\uv.exe") <;>
          simp [h4, h5, firstSome]

/-- C2 witness: in a fixture where standard lookup fails but the third
strategy succeeds, resolution returns the third strategy's path. -/
theorem findUVPath_strategy_order_witness :
    findUVPath uvEnvM3 = Except.ok "C:\\ProgramData\\chocolatey\\lib\\uv.1.0\\tools\\uv.exe" := by
  rw [findUVPath_strategy_order uvEnvM3]
  have h : firstSome [uvStrategy1 uvEnvM3, uvStrategy2 uvEnvM3, uvStrategy3 uvEnvM3,
      uvStrategy4 uvEnvM3] = some "C:\\ProgramData\\chocolatey\\lib\\uv.1.0\\tools\\uv.exe" := by
    decide
  rw [h]

/-- C3: when the choco install subprocess exits with code 3010 (success but
reboot required), `runChocoInstall` returns the distinguished
`RebootRequiredError` variant, never a generic error. -/
theorem runChocoInstall_reboot_required (chocoRun : String → RunOutcome) (pkg : String)
    (h : chocoRun pkg = .exitErr 3010) :
    runChocoInstall chocoRun pkg =
      some (.rebootRequired ("installation of " ++ pkg ++ " requires a system reboot")) ∧
    ∀ msg, runChocoInstall chocoRun pkg ≠ some (.generic msg) := by
  constructor
  · simp [runChocoInstall, h]
  · intro msg
    simp [runChocoInstall, h]

/-- C3 witness: concrete run with exit code 3010 yields `RebootRequiredError`. -/
theorem runChocoInstall_reboot_required_witness :
    runChocoInstall chocoRun3010 "nrfjprog" =
      some (.rebootRequired "installation of nrfjprog requires a system reboot") := by
  exact (runChocoInstall_reboot_required chocoRun3010 "nrfjprog" rfl).1

/-- C1: on macOS every requested dependency gets its own install task and all
tasks run to completion regardless of sibling failures (the task trace covers
the whole list); with Homebrew present, the function returns exactly the
first error drained from the channel after the join, which is non-nil
whenever at least one task failed — for every channel arrival order. -/
theorem darwin_installDependencies_no_short_circuit
    (env : DarwinEnv) (deps : List String) (arrival : List GoError)
    (hbrew : darwinCommandExists env "brew" = true)
    (hperm : arrival.Perm (darwinTaskErrors env deps)) :
    (darwinInstallTasks env deps).length = deps.length ∧
    (∀ dep ∈ deps, (dep, darwinInstallDep env dep) ∈ darwinInstallTasks env deps) ∧
    darwinInstallDependencies env arrival = arrival.head? ∧
    ((∃ dep ∈ deps, darwinInstallDep env dep ≠ none) →
      (darwinInstallDependencies env arrival).isSome = true) := by
  refine ⟨by simp [darwinInstallTasks], ?_, ?_, ?_⟩
  · intro dep hdep
    exact List.mem_map.mpr ⟨dep, hdep, rfl⟩
  · simp [darwinInstallDependencies, hbrew]
  · rintro ⟨dep, hdep, hne⟩
    cases herr : darwinInstallDep env dep with
    | none => exact absurd herr hne
    | some e =>
      have hmem : e ∈ darwinTaskErrors env deps :=
        List.mem_filterMap.mpr ⟨dep, hdep, herr⟩
      have hlen : arrival.length = (darwinTaskErrors env deps).length := hperm.length_eq
      have harr : arrival ≠ [] := by
        intro hnil
        rw [hnil] at hlen
        rw [List.eq_nil_of_length_eq_zero hlen.symm] at hmem
        exact absurd hmem (List.not_mem_nil e)
      cases harr' : arrival with
      | nil => exact absurd harr' harr
      | cons x xs => simp [darwinInstallDependencies, hbrew]

/-- C1 witness: two dependencies, both installs failing; both tasks appear in
the trace and the returned error is non-nil. -/
theorem darwin_installDependencies_no_short_circuit_witness :
    (darwinInstallTasks dEnvFail ["uv", "nrfutil"]).length = 2 ∧
    (darwinInstallDependencies dEnvFail (darwinTaskErrors dEnvFail ["uv", "nrfutil"])).isSome
      = true := by
  have h := darwin_installDependencies_no_short_circuit dEnvFail ["uv", "nrfutil"]
    (darwinTaskErrors dEnvFail ["uv", "nrfutil"]) (by decide) (List.Perm.refl _)
  exact ⟨h.1, h.2.2.2 ⟨"uv", by decide, by decide⟩⟩

/-- C5 counterexample: Homebrew is on PATH but non-functional, yet
`InstallPackageManager` succeeds with zero side effects and in particular
never runs the `brew --version` verification subprocess — the no-op check is
presence-only, contradicting the claim that functionality is verified via a
version-query subprocess. -/
theorem darwin_installPackageManager_skips_version_query :
    (darwinCommandExists pmBadEnv "brew" = true ∧
     pmBadEnv.brewVersionOk = false ∧
     darwinInstallPackageManager pmBadEnv = ([], none)) ∧
    ((wPMBadEnv.lookPath "choco").isSome = true ∧
     wPMBadEnv.chocoVersionOk = false ∧
     windowsInstallPackageManager wPMBadEnv = ([], none)) := by
  decide

/-- C5 amended: on both platforms `InstallPackageManager` no-ops (success,
zero install side effects, no subprocess at all) whenever the manager command
is merely present on PATH; and any successful call leaves the manager
present, so a second call after a successful one performs zero install side
effects. -/
theorem installPackageManager_idempotent (denv : DarwinEnv) (wenv : WinPMEnv) :
    (darwinCommandExists denv "brew" = true → darwinInstallPackageManager denv = ([], none)) ∧
    ((darwinInstallPackageManager denv).2 = none →
      darwinCommandExists denv "brew" = true ∨ denv.brewOnPathAfterInstall = true) ∧
    ((wenv.lookPath "choco").isSome = true → windowsInstallPackageManager wenv = ([], none)) ∧
    ((windowsInstallPackageManager wenv).2 = none →
      (wenv.lookPath "choco").isSome = true ∨ wenv.chocoOnPathAfterInstall = true) := by
  refine ⟨?_, ?_, ?_, ?_⟩
  · intro h
    simp [darwinInstallPackageManager, h]
  · intro h
    by_cases hb : darwinCommandExists denv "brew" = true
    · exact Or.inl hb
    · right
      by_cases hA : denv.brewOnPathAfterInstall = true
      · exact hA
      · exfalso
        simp only [darwinInstallPackageManager, hb, if_false] at h
        rcases hsudo : darwinEnsureSudoAccess denv with ⟨sudoFx, oe⟩
        rw [hsudo] at h
        cases oe with
        | some e => simp at h
        | none =>
          by_cases hscript : denv.installScriptOk
          · simp only [hscript, Bool.not_true, Bool.false_eq_true, if_false] at h
            rcases hpath : darwinSetupBrewPath denv with ⟨pathFx, pe⟩
            rw [hpath] at h
            cases pe with
            | some e => simp at h
            | none =>
              have hA' : denv.brewOnPathAfterInstall = false := by
                simpa using hA
              simp [hA'] at h
          · simp [hscript] at h
  · intro h
    simp [windowsInstallPackageManager, h]
  · intro h
    by_cases hb : (wenv.lookPath "choco").isSome = true
    · exact Or.inl hb
    · right
      by_cases hA : wenv.chocoOnPathAfterInstall = true
      · exact hA
      · exfalso
        simp only [windowsInstallPackageManager, hb, if_false] at h
        cases hadmin : windowsEnsureAdminAccess wenv with
        | some e => rw [hadmin] at h; simp at h
        | none =>
          rw [hadmin] at h
          by_cases hscript : wenv.installScriptOk
          · simp only [hscript, Bool.not_true, Bool.false_eq_true, if_false] at h
            rcases hpath : windowsSetupChocoPath wenv with ⟨pathFx, pe⟩
            rw [hpath] at h
            cases pe with
            | some e => simp at h
            | none =>
              have hA' : wenv.chocoOnPathAfterInstall = false := by
                simpa using hA
              simp [hA'] at h
          · simp [hscript] at h

/-- C5 witness: with the manager present on PATH, both bootstrappers return
success and an empty effect trace. -/
theorem installPackageManager_idempotent_witness :
    darwinInstallPackageManager pmBadEnv = ([], none) ∧
    windowsInstallPackageManager wPMBadEnv = ([], none) := by
  have h := installPackageManager_idempotent pmBadEnv wPMBadEnv
  exact ⟨h.1 (by decide), h.2.2.1 (by decide)⟩

/-- Helper: once a missing SEGGER J-Link is reached, the Linux prerequisite
loop prints the remediation for the detected package manager and returns the
hard error, whatever came before it in the list. -/
theorem linuxCheckLoop_jlink_error (env : LinuxEnv) (hj : env.lookPath "JLinkExe" = none) :
    ∀ (l : List String) (missing : List MissingDependency) (out : List String),
      "segger-jlink" ∈ l →
      linuxCheckLoop env l missing out =
        (out ++ linuxJLinkRemediation env.pkgManager,
         .error (.generic "J-Link must be installed before running this installer")) := by
  intro l
  induction l with
  | nil => intro missing out hmem; exact absurd hmem (List.not_mem_nil _)
  | cons dep rest ih =>
    intro missing out hmem
    by_cases hu : dep = "uv"
    · have hrest : "segger-jlink" ∈ rest := by
        rcases List.mem_cons.mp hmem with heq | h
        · rw [hu] at heq; exact absurd heq.symm (by decide)
        · exact h
      by_cases hl : (env.lookPath "uv").isSome
      · simp only [linuxCheckLoop, hu, if_true, hl, ite_true]
        exact ih missing out hrest
      · simp only [linuxCheckLoop, hu, if_true, hl, Bool.false_eq_true, ite_false]
        exact ih (missing ++ [⟨"uv", "Not installed"⟩]) out hrest
    · by_cases hs : dep = "segger-jlink"
      · simp [linuxCheckLoop, hu, hs, hj]
      · have hrest : "segger-jlink" ∈ rest := by
          rcases List.mem_cons.mp hmem with heq | h
          · exact absurd heq.symm hs
          · exact h
        simp only [linuxCheckLoop, hu, hs, if_false]
        exact ih missing out hrest

/-- C4 counterexample: on an apt system with J-Link absent the check does
return a hard error, but its remediation output contains only the
dpkg-variant install command — the dnf and yum variants are absent,
contradicting the claim that all three appear. -/
theorem linux_check_jlink_single_variant :
    (linuxCheckPrerequisites lEnvAPT ["segger-jlink"]).2 =
      .error (.generic "J-Link must be installed before running this installer") ∧
    "  sudo dpkg -i JLink_Linux_*.deb" ∈ (linuxCheckPrerequisites lEnvAPT ["segger-jlink"]).1 ∧
    "  sudo dnf install JLink_Linux_*.rpm" ∉ (linuxCheckPrerequisites lEnvAPT ["segger-jlink"]).1 ∧
    "  sudo yum install JLink_Linux_*.rpm" ∉ (linuxCheckPrerequisites lEnvAPT ["segger-jlink"]).1
    := by
  refine ⟨rfl, by decide, by decide, by decide⟩

/-- C4 amended: on a supported distribution, whenever the required list
contains `segger-jlink` and `JLinkExe` is absent, `CheckPrerequisites`
returns a hard error (never a MissingDependency entry) and its remediation
output contains the single manual-install command variant matching the
detected package manager; the check returns that error immediately, so no
install attempt is made for the tool in the run. -/
theorem linux_checkPrerequisites_license_restricted (env : LinuxEnv) (deps : List String)
    (hpm : env.pkgManager ≠ .unknown)
    (hmem : "segger-jlink" ∈ deps)
    (hj : env.lookPath "JLinkExe" = none) :
    (linuxCheckPrerequisites env deps).2 =
      .error (.generic "J-Link must be installed before running this installer") ∧
    ∀ c ∈ linuxJLinkCommands env.pkgManager, c ∈ (linuxCheckPrerequisites env deps).1 := by
  have h := linuxCheckLoop_jlink_error env hj deps [] [] hmem
  have hpm' : ¬(env.pkgManager = LinuxPM.unknown) := hpm
  constructor
  · simp only [linuxCheckPrerequisites, hpm', if_false, h]
  · intro c hc
    simp only [linuxCheckPrerequisites, hpm', if_false, h]
    simp only [linuxJLinkRemediation, List.nil_append]
    refine List.mem_append.mpr (Or.inl ?_)
    exact List.mem_append.mpr (Or.inr hc)

/-- C4 witness: concrete apt fixture with J-Link missing. -/
theorem linux_checkPrerequisites_license_restricted_witness :
    (linuxCheckPrerequisites lEnvAPT ["uv", "segger-jlink"]).2 =
      .error (.generic "J-Link must be installed before running this installer") ∧
    "  sudo dpkg -i JLink_Linux_*.deb" ∈
      (linuxCheckPrerequisites lEnvAPT ["uv", "segger-jlink"]).1 := by
  have h := linux_checkPrerequisites_license_restricted lEnvAPT ["uv", "segger-jlink"]
    (by decide) (by decide) rfl
  exact ⟨h.1, h.2 _ (by decide)⟩

/-- Helper: a contiguous middle segment of a list is a sublist of it. -/
theorem mid_sublist {α : Type} (pre mid suf : List α) :
    List.Sublist mid (pre ++ mid ++ suf) := by
  have h1 : List.Sublist mid (mid ++ suf) := List.sublist_append_left mid suf
  have h2 : List.Sublist (mid ++ suf) (pre ++ (mid ++ suf)) :=
    List.sublist_append_right pre (mid ++ suf)
  rw [List.append_assoc]
  exact h1.trans h2

/-- Helper: every joined Unix path contains a slash. -/
theorem slash_mem_joinPath (c f : String) : '/' ∈ (joinPath c f).data := by
  simp [joinPath, String.data_append]

/-- Helper: every joined Windows path contains a backslash. -/
theorem bslash_mem_winJoinPath (c f : String) : '\\' ∈ (winJoinPath c f).data := by
  simp [winJoinPath, String.data_append]

/-- Helper: a joined Unix path never equals a slash-free string. -/
theorem joinPath_ne (c f s : String) (h : '/' ∉ s.data) : joinPath c f ≠ s := by
  intro he
  exact h (he ▸ slash_mem_joinPath c f)

/-- Helper: a joined Windows path never equals a backslash-free string. -/
theorem winJoinPath_ne (c f s : String) (h : '\\' ∉ s.data) : winJoinPath c f ≠ s := by
  intro he
  exact h (he ▸ bslash_mem_winJoinPath c f)

/-- C6 counterexample: the Linux flashing and hex-generation argument vectors
omit the `--refresh` flag, contradicting the claim for every platform. -/
theorem linux_flash_args_missing_refresh :
    "--refresh" ∉ linuxFlashArgs "org123" "tok456" "nrf52840dk" "" ∧
    "--refresh" ∉ linuxGenerateHexArgs "org123" "tok456" "cc1352p7" "" "/home/dev" := by
  decide

/-- C6 amended: on macOS and Windows every FlashBoard / GenerateHexFile
argument vector includes the `--refresh` flag, while the Linux vectors omit
it; on all platforms the vector includes the board identifier, the credential
pair `-o orgID -t apiToken` (contiguously), the `-n deviceName` flag exactly
when the device name is non-empty, and the `-f outputPath` flag exactly in
the hex-generation path.  The inequality hypotheses rule out the degenerate
inputs that shadow a flag literally. -/
theorem flash_args_flags (o t b n cwd : String)
    (hbr : b ≠ "--refresh") (hor : o ≠ "--refresh") (htr : t ≠ "--refresh")
    (hnr : n ≠ "--refresh")
    (hbf : b ≠ "-f") (hof : o ≠ "-f") (htf : t ≠ "-f")
    (hbn : b ≠ "-n") (hon : o ≠ "-n") (htn : t ≠ "-n") :
    ("--refresh" ∈ darwinFlashArgs o t b n ∧
     "--refresh" ∈ windowsFlashArgs o t b n ∧
     "--refresh" ∈ darwinGenerateHexArgs o t b n cwd ∧
     "--refresh" ∈ windowsGenerateHexArgs o t b n cwd ∧
     "--refresh" ∉ linuxFlashArgs o t b n ∧
     "--refresh" ∉ linuxGenerateHexArgs o t b n cwd) ∧
    (b ∈ darwinFlashArgs o t b n ∧ b ∈ linuxFlashArgs o t b n ∧
     b ∈ windowsFlashArgs o t b n ∧ b ∈ darwinGenerateHexArgs o t b n cwd ∧
     b ∈ linuxGenerateHexArgs o t b n cwd ∧ b ∈ windowsGenerateHexArgs o t b n cwd) ∧
    (List.Sublist ["-o", o, "-t", t] (darwinFlashArgs o t b n) ∧
     List.Sublist ["-o", o, "-t", t] (linuxFlashArgs o t b n) ∧
     List.Sublist ["-o", o, "-t", t] (windowsFlashArgs o t b n) ∧
     List.Sublist ["-o", o, "-t", t] (darwinGenerateHexArgs o t b n cwd) ∧
     List.Sublist ["-o", o, "-t", t] (linuxGenerateHexArgs o t b n cwd) ∧
     List.Sublist ["-o", o, "-t", t] (windowsGenerateHexArgs o t b n cwd)) ∧
    (n ≠ "" →
      List.Sublist ["-n", n] (darwinFlashArgs o t b n) ∧
      List.Sublist ["-n", n] (linuxFlashArgs o t b n) ∧
      List.Sublist ["-n", n] (windowsFlashArgs o t b n) ∧
      List.Sublist ["-n", n] (darwinGenerateHexArgs o t b n cwd) ∧
      List.Sublist ["-n", n] (linuxGenerateHexArgs o t b n cwd) ∧
      List.Sublist ["-n", n] (windowsGenerateHexArgs o t b n cwd)) ∧
    (n = "" →
      "-n" ∉ darwinFlashArgs o t b n ∧
      "-n" ∉ linuxFlashArgs o t b n ∧
      "-n" ∉ windowsFlashArgs o t b n ∧
      "-n" ∉ darwinGenerateHexArgs o t b n cwd ∧
      "-n" ∉ linuxGenerateHexArgs o t b n cwd ∧
      "-n" ∉ windowsGenerateHexArgs o t b n cwd) ∧
    (List.Sublist ["-f", joinPath cwd (hexFileName b n)] (darwinGenerateHexArgs o t b n cwd) ∧
     List.Sublist ["-f", joinPath cwd (hexFileName b n)] (linuxGenerateHexArgs o t b n cwd) ∧
     List.Sublist ["-f", winJoinPath cwd (hexFileName b n)] (windowsGenerateHexArgs o t b n cwd) ∧
     (n ≠ "-f" →
       "-f" ∉ darwinFlashArgs o t b n ∧
       "-f" ∉ linuxFlashArgs o t b n ∧
       "-f" ∉ windowsFlashArgs o t b n)) := by
  have hpjr : joinPath cwd (hexFileName b n) ≠ "--refresh" :=
    joinPath_ne _ _ _ (by decide)
  have hpjn : joinPath cwd (hexFileName b n) ≠ "-n" :=
    joinPath_ne _ _ _ (by decide)
  have hpwn : winJoinPath cwd (hexFileName b n) ≠ "-n" :=
    winJoinPath_ne _ _ _ (by decide)
  by_cases hn : n = ""
  · have hpjr0 : joinPath cwd (hexFileName b "") ≠ "--refresh" :=
      joinPath_ne _ _ _ (by decide)
    have hpjn0 : joinPath cwd (hexFileName b "") ≠ "-n" :=
      joinPath_ne _ _ _ (by decide)
    have hpwn0 : winJoinPath cwd (hexFileName b "") ≠ "-n" :=
      winJoinPath_ne _ _ _ (by decide)
    refine ⟨⟨?_, ?_, ?_, ?_, ?_, ?_⟩, ⟨?_, ?_, ?_, ?_, ?_, ?_⟩, ⟨?_, ?_, ?_, ?_, ?_, ?_⟩,
      fun hne => absurd hn hne, fun _ => ⟨?_, ?_, ?_, ?_, ?_, ?_⟩, ⟨?_, ?_, ?_, fun _ => ⟨?_, ?_, ?_⟩⟩⟩
    · simp [darwinFlashArgs, hn]
    · simp [windowsFlashArgs, hn]
    · simp [darwinGenerateHexArgs, hn]
    · simp [windowsGenerateHexArgs, hn]
    · simp [linuxFlashArgs, hn, Ne.symm hbr, Ne.symm hor, Ne.symm htr]
    · simp [linuxGenerateHexArgs, hn, Ne.symm hbr, Ne.symm hor, Ne.symm htr, Ne.symm hpjr0]
    · simp [darwinFlashArgs, hn]
    · simp [linuxFlashArgs, hn]
    · simp [windowsFlashArgs, hn]
    · simp [darwinGenerateHexArgs, hn]
    · simp [linuxGenerateHexArgs, hn]
    · simp [windowsGenerateHexArgs, hn]
    · simp only [darwinFlashArgs, hn, ne_eq, not_true_eq_false, ite_false]
      exact mid_sublist ["tool", "run", "--refresh", "--from", "pyhubbledemo", "hubbledemo",
        "flash", b] ["-o", o, "-t", t] []
    · simp only [linuxFlashArgs, hn, ne_eq, not_true_eq_false, ite_false]
      exact mid_sublist ["tool", "run", "--from", "pyhubbledemo", "hubbledemo",
        "flash", b] ["-o", o, "-t", t] []
    · simp only [windowsFlashArgs, hn, ne_eq, not_true_eq_false, ite_false]
      exact mid_sublist ["tool", "run", "--refresh", "--from", "pyhubbledemo", "hubbledemo",
        "flash", b] ["-o", o, "-t", t] []
    · simp only [darwinGenerateHexArgs, hn, ne_eq, not_true_eq_false, ite_false]
      exact mid_sublist ["tool", "run", "--refresh", "--from", "pyhubbledemo", "hubbledemo",
        "flash", b] ["-o", o, "-t", t] ["-f", joinPath cwd (hexFileName b "")]
    · simp only [linuxGenerateHexArgs, hn, ne_eq, not_true_eq_false, ite_false]
      exact mid_sublist ["tool", "run", "--from", "pyhubbledemo", "hubbledemo",
        "flash", b] ["-o", o, "-t", t] ["-f", joinPath cwd (hexFileName b "")]
    · simp only [windowsGenerateHexArgs, hn, ne_eq, not_true_eq_false, ite_false]
      exact mid_sublist ["tool", "run", "--refresh", "--from", "pyhubbledemo", "hubbledemo",
        "flash", b] ["-o", o, "-t", t] ["-f", winJoinPath cwd (hexFileName b "")]
    · simp [darwinFlashArgs, hn, Ne.symm hbn, Ne.symm hon, Ne.symm htn]
    · simp [linuxFlashArgs, hn, Ne.symm hbn, Ne.symm hon, Ne.symm htn]
    · simp [windowsFlashArgs, hn, Ne.symm hbn, Ne.symm hon, Ne.symm htn]
    · simp [darwinGenerateHexArgs, hn, Ne.symm hbn, Ne.symm hon, Ne.symm htn, Ne.symm hpjn0]
    · simp [linuxGenerateHexArgs, hn, Ne.symm hbn, Ne.symm hon, Ne.symm htn, Ne.symm hpjn0]
    · simp [windowsGenerateHexArgs, hn, Ne.symm hbn, Ne.symm hon, Ne.symm htn, Ne.symm hpwn0]
    · simp only [darwinGenerateHexArgs, hn, ne_eq, not_true_eq_false, ite_false]
      exact mid_sublist ["tool", "run", "--refresh", "--from", "pyhubbledemo", "hubbledemo",
        "flash", b, "-o", o, "-t", t] ["-f", joinPath cwd (hexFileName b "")] []
    · simp only [linuxGenerateHexArgs, hn, ne_eq, not_true_eq_false, ite_false]
      exact mid_sublist ["tool", "run", "--from", "pyhubbledemo", "hubbledemo",
        "flash", b, "-o", o, "-t", t] ["-f", joinPath cwd (hexFileName b "")] []
    · simp only [windowsGenerateHexArgs, hn, ne_eq, not_true_eq_false, ite_false]
      exact mid_sublist ["tool", "run", "--refresh", "--from", "pyhubbledemo", "hubbledemo",
        "flash", b, "-o", o, "-t", t] ["-f", winJoinPath cwd (hexFileName b "")] []
    · simp [darwinFlashArgs, hn, Ne.symm hbf, Ne.symm hof, Ne.symm htf]
    · simp [linuxFlashArgs, hn, Ne.symm hbf, Ne.symm hof, Ne.symm htf]
    · simp [windowsFlashArgs, hn, Ne.symm hbf, Ne.symm hof, Ne.symm htf]
  · refine ⟨⟨?_, ?_, ?_, ?_, ?_, ?_⟩, ⟨?_, ?_, ?_, ?_, ?_, ?_⟩, ⟨?_, ?_, ?_, ?_, ?_, ?_⟩,
      fun _ => ⟨?_, ?_, ?_, ?_, ?_, ?_⟩, fun heq => absurd heq hn,
      ⟨?_, ?_, ?_, ?_⟩⟩
    · simp [darwinFlashArgs, hn]
    · simp [windowsFlashArgs, hn]
    · simp [darwinGenerateHexArgs, hn]
    · simp [windowsGenerateHexArgs, hn]
    · simp [linuxFlashArgs, hn, Ne.symm hbr, Ne.symm hor, Ne.symm htr, Ne.symm hnr]
    · simp [linuxGenerateHexArgs, hn, Ne.symm hbr, Ne.symm hor, Ne.symm htr, Ne.symm hnr,
        Ne.symm hpjr]
    · simp [darwinFlashArgs, hn]
    · simp [linuxFlashArgs, hn]
    · simp [windowsFlashArgs, hn]
    · simp [darwinGenerateHexArgs, hn]
    · simp [linuxGenerateHexArgs, hn]
    · simp [windowsGenerateHexArgs, hn]
    · simp only [darwinFlashArgs, hn, ne_eq, not_false_eq_true, ite_true]
      exact mid_sublist ["tool", "run", "--refresh", "--from", "pyhubbledemo", "hubbledemo",
        "flash", b] ["-o", o, "-t", t] ["-n", n]
    · simp only [linuxFlashArgs, hn, ne_eq, not_false_eq_true, ite_true]
      exact mid_sublist ["tool", "run", "--from", "pyhubbledemo", "hubbledemo",
        "flash", b] ["-o", o, "-t", t] ["-n", n]
    · simp only [windowsFlashArgs, hn, ne_eq, not_false_eq_true, ite_true]
      exact mid_sublist ["tool", "run", "--refresh", "--from", "pyhubbledemo", "hubbledemo",
        "flash", b] ["-o", o, "-t", t] ["-n", n]
    · simp only [darwinGenerateHexArgs, hn, ne_eq, not_false_eq_true, ite_true]
      exact mid_sublist ["tool", "run", "--refresh", "--from", "pyhubbledemo", "hubbledemo",
        "flash", b] ["-o", o, "-t", t] ["-f", joinPath cwd (hexFileName b n), "-n", n]
    · simp only [linuxGenerateHexArgs, hn, ne_eq, not_false_eq_true, ite_true]
      exact mid_sublist ["tool", "run", "--from", "pyhubbledemo", "hubbledemo",
        "flash", b] ["-o", o, "-t", t] ["-f", joinPath cwd (hexFileName b n), "-n", n]
    · simp only [windowsGenerateHexArgs, hn, ne_eq, not_false_eq_true, ite_true]
      exact mid_sublist ["tool", "run", "--refresh", "--from", "pyhubbledemo", "hubbledemo",
        "flash", b] ["-o", o, "-t", t] ["-f", winJoinPath cwd (hexFileName b n), "-n", n]
    · simp only [darwinFlashArgs, hn, ne_eq, not_false_eq_true, ite_true]
      exact mid_sublist ["tool", "run", "--refresh", "--from", "pyhubbledemo", "hubbledemo",
        "flash", b, "-o", o, "-t", t] ["-n", n] []
    · simp only [linuxFlashArgs, hn, ne_eq, not_false_eq_true, ite_true]
      exact mid_sublist ["tool", "run", "--from", "pyhubbledemo", "hubbledemo",
        "flash", b, "-o", o, "-t", t] ["-n", n] []
    · simp only [windowsFlashArgs, hn, ne_eq, not_false_eq_true, ite_true]
      exact mid_sublist ["tool", "run", "--refresh", "--from", "pyhubbledemo", "hubbledemo",
        "flash", b, "-o", o, "-t", t] ["-n", n] []
    · simp only [darwinGenerateHexArgs, hn, ne_eq, not_false_eq_true, ite_true]
      exact mid_sublist ["tool", "run", "--refresh", "--from", "pyhubbledemo", "hubbledemo",
        "flash", b, "-o", o, "-t", t, "-f", joinPath cwd (hexFileName b n)] ["-n", n] []
    · simp only [linuxGenerateHexArgs, hn, ne_eq, not_false_eq_true, ite_true]
      exact mid_sublist ["tool", "run", "--from", "pyhubbledemo", "hubbledemo",
        "flash", b, "-o", o, "-t", t, "-f", joinPath cwd (hexFileName b n)] ["-n", n] []
    · simp only [windowsGenerateHexArgs, hn, ne_eq, not_false_eq_true, ite_true]
      exact mid_sublist ["tool", "run", "--refresh", "--from", "pyhubbledemo", "hubbledemo",
        "flash", b, "-o", o, "-t", t, "-f", winJoinPath cwd (hexFileName b n)] ["-n", n] []
    · simp only [darwinGenerateHexArgs, hn, ne_eq, not_false_eq_true, ite_true]
      exact mid_sublist ["tool", "run", "--refresh", "--from", "pyhubbledemo", "hubbledemo",
        "flash", b, "-o", o, "-t", t] ["-f", joinPath cwd (hexFileName b n)] ["-n", n]
    · simp only [linuxGenerateHexArgs, hn, ne_eq, not_false_eq_true, ite_true]
      exact mid_sublist ["tool", "run", "--from", "pyhubbledemo", "hubbledemo",
        "flash", b, "-o", o, "-t", t] ["-f", joinPath cwd (hexFileName b n)] ["-n", n]
    · simp only [windowsGenerateHexArgs, hn, ne_eq, not_false_eq_true, ite_true]
      exact mid_sublist ["tool", "run", "--refresh", "--from", "pyhubbledemo", "hubbledemo",
        "flash", b, "-o", o, "-t", t] ["-f", winJoinPath cwd (hexFileName b n)] ["-n", n]
    · intro hnf
      refine ⟨?_, ?_, ?_⟩
      · simp [darwinFlashArgs, hn, Ne.symm hbf, Ne.symm hof, Ne.symm htf, Ne.symm hnf]
      · simp [linuxFlashArgs, hn, Ne.symm hbf, Ne.symm hof, Ne.symm htf, Ne.symm hnf]
      · simp [windowsFlashArgs, hn, Ne.symm hbf, Ne.symm hof, Ne.symm htf, Ne.symm hnf]

/-- C6 witness: concrete inputs exercising the amended argument-vector
contract. -/
theorem flash_args_flags_witness :
    "--refresh" ∈ darwinFlashArgs "org" "tok" "board" "dev" ∧
    "--refresh" ∉ linuxFlashArgs "org" "tok" "board" "dev" := by
  have h := flash_args_flags "org" "tok" "board" "dev" "/w"
    (by decide) (by decide) (by decide) (by decide) (by decide) (by decide) (by decide)
    (by decide) (by decide) (by decide)
  exact ⟨h.1.1, h.1.2.2.2.2.1⟩

/-- Helper: two strings whose first characters differ are different, even
after appending to the first. -/
theorem string_append_ne (a b s : String) (c₁ c₂ : Char)
    (h1 : a.data.head? = some c₁) (h2 : s.data.head? = some c₂) (hne : c₁ ≠ c₂) :
    a ++ b ≠ s := by
  intro he
  have hd : a.data ++ b.data = s.data := by
    have := congrArg String.data he
    simpa [String.data_append] using this
  have hhead : (a.data ++ b.data).head? = some c₁ := by
    cases ha : a.data with
    | nil => rw [ha] at h1; exact absurd h1 (by simp)
    | cons x xs =>
      rw [ha] at h1
      simp only [List.head?_cons, Option.some.injEq] at h1
      simp [ha, h1]
  rw [hd, h2] at hhead
  exact hne (Option.some.inj hhead).symm

/-- C7 counterexample: the flash subprocess fails with DNS-looking error
text, yet the returned error is the plain wrapped run error — it does not
contain the network-remediation block (the block is only printed to the
terminal), contradicting the claim that the block is appended to the
returned error. -/
theorem windows_flash_error_without_block :
    isNetworkErrorText "dns error: no such host" = true ∧
    (windowsFlashBoard wFlashDNS "o1" "t1" "b1" "").2 =
      .error (.generic "flash command failed: dns error: no such host") ∧
    goContains "flash command failed: dns error: no such host" "Troubleshooting steps:"
      = false ∧
    "Troubleshooting steps:" ∈ (windowsFlashBoard wFlashDNS "o1" "t1" "b1" "").1 := by
  refine ⟨by decide, rfl, by decide, by decide⟩

/-- C7 amended: when the Windows flash subprocess exits non-zero the
remediation block is printed to the terminal exactly when the error text
contains one of the DNS/network substrings, while the returned error is the
identically wrapped run error in both cases; the macOS invoker never emits
the block at all. -/
theorem windows_flash_network_annotation (env : WinFlashEnv) (o t b n errStr : String)
    (hfind : (findUVPath env.uvEnv).isOk = true)
    (hrun : env.runErr = some errStr) :
    (windowsFlashBoard env o t b n).2 =
      .error (.generic ("flash command failed: " ++ errStr)) ∧
    ("Troubleshooting steps:" ∈ (windowsFlashBoard env o t b n).1 ↔
      isNetworkErrorText errStr = true) ∧
    ∀ denv : DarwinEnv, "Troubleshooting steps:" ∉ (darwinFlashBoard denv o t b n).1 := by
  have hne1 : "Flashing board: " ++ b ≠ "Troubleshooting steps:" :=
    string_append_ne _ _ _ 'F' 'T' rfl rfl (by decide)
  cases hfo : findUVPath env.uvEnv with
  | error e => rw [hfo] at hfind; exact absurd hfind (by simp [Except.isOk, Except.toBool])
  | ok p =>
    refine ⟨?_, ?_, ?_⟩
    · simp [windowsFlashBoard, hfo, hrun]
    · by_cases hnet : isNetworkErrorText errStr = true
      · simp only [windowsFlashBoard, hfo, hrun, hnet, if_true, iff_true]
        refine List.mem_append.mpr (Or.inr ?_)
        decide
      · have hnet' : isNetworkErrorText errStr = false := by simpa using hnet
        simp only [windowsFlashBoard, hfo, hrun, hnet', Bool.false_eq_true, if_false,
          List.append_nil]
        constructor
        · intro hmem
          rcases List.mem_cons.mp hmem with h | h
          · exact absurd h.symm hne1
          · rcases List.mem_cons.mp h with h' | h'
            · exact absurd h' (by decide)
            · exact absurd h' (List.not_mem_nil _)
        · intro h; exact absurd h (by simp [hnet'])
    · intro denv
      have hne2 : "Board " ++ (b ++ " flashed successfully!") ≠ "Troubleshooting steps:" :=
        string_append_ne _ _ _ 'B' 'T' rfl rfl (by decide)
      intro hmem
      unfold darwinFlashBoard at hmem
      cases hlp : denv.lookPath "uv" with
      | none =>
        rw [hlp] at hmem
        simp only [List.mem_cons, List.not_mem_nil, or_false] at hmem
        rcases hmem with h | h
        · exact hne1 h.symm
        · exact absurd h (by decide)
      | some q =>
        rw [hlp] at hmem
        cases hre : denv.flashRunErr with
        | some msg =>
          rw [hre] at hmem
          simp only [List.mem_cons, List.not_mem_nil, or_false] at hmem
          rcases hmem with h | h
          · exact hne1 h.symm
          · exact absurd h (by decide)
        | none =>
          rw [hre] at hmem
          simp only [List.cons_append, List.nil_append, List.mem_cons,
            List.not_mem_nil, or_false] at hmem
          rcases hmem with h | h | h
          · exact hne1 h.symm
          · exact absurd h (by decide)
          · rw [String.append_assoc] at h
            exact hne2 h.symm

/-- C7 witness: concrete DNS-failure fixture; the remediation block appears
in the printed output. -/
theorem windows_flash_network_annotation_witness :
    "Troubleshooting steps:" ∈ (windowsFlashBoard wFlashDNS "o2" "t2" "b2" "").1 := by
  have h := windows_flash_network_annotation wFlashDNS "o2" "t2" "b2" ""
    "dns error: no such host" rfl rfl
  exact h.2.1.mpr (by decide)

/-- Helper: a pattern starts every list it is prepended to. -/
theorem hasPre_self_append (p rest : List Char) : hasPre p (p ++ rest) = true := by
  induction p with
  | nil => rfl
  | cons a as ih => simp [hasPre, ih]

/-- Helper: a pattern occurs in every list it is prepended to. -/
theorem hasSub_self_append (p rest : List Char) : hasSub p (p ++ rest) = true := by
  cases p with
  | nil =>
    cases rest with
    | nil => rfl
    | cons x xs =>
      simp only [List.nil_append, hasSub, Bool.or_eq_true]
      exact Or.inl rfl
  | cons a as =>
    have h := hasPre_self_append (a :: as) rest
    simp only [List.cons_append, hasSub, Bool.or_eq_true]
    exact Or.inl (by simpa using h)

/-- Helper: a PATH value that starts with a directory contains it
case-insensitively. -/
theorem goContainsCI_prepend (a b : String) : goContainsCI (a ++ ";" ++ b) a = true := by
  simp only [goContainsCI, lowerChars, String.data_append, List.map_append, List.append_assoc]
  exact hasSub_self_append _ _

/-- C8 counterexample: with nrfutil absent from PATH but present at its
default install location, `WindowsInstaller.CheckPrerequisites` mutates the
process PATH, prepending the nrfutil directory. -/
theorem windows_check_mutates_path :
    (windowsCheckPrerequisites wCheckEnv ["nrfutil"]).2 ≠ wCheckEnv.initPath ∧
    (windowsCheckPrerequisites wCheckEnv ["nrfutil"]).2 =
      winNrfutilDir wCheckEnv ++ ";" ++ wCheckEnv.initPath := by
  decide

/-- Helper: one prerequisite-check step keeps PATH either untouched or equal
to the single nrfutil prepend. -/
theorem windowsCheckStep_path (env : WinCheckEnv) (acc : List MissingDependency × String)
    (dep : String)
    (h : acc.2 = env.initPath ∨ acc.2 = winNrfutilDir env ++ ";" ++ env.initPath) :
    (windowsCheckStep env acc dep).2 = env.initPath ∨
    (windowsCheckStep env acc dep).2 = winNrfutilDir env ++ ";" ++ env.initPath := by
  obtain ⟨missing, path⟩ := acc
  by_cases h1 : dep = "uv"
  · by_cases hl : env.lookupOn path "uv" = true <;> simp [windowsCheckStep, h1, hl] <;> exact h
  · by_cases h2 : dep = "nrfutil"
    · by_cases hl : env.lookupOn path "nrfutil" = true
      · simp [windowsCheckStep, h1, h2, windowsNrfutilInstalled, hl]
        exact h
      · by_cases hs : env.statExists (winNrfutilExe env) = true
        · by_cases hc : goContainsCI path (winNrfutilDir env) = true
          · simp [windowsCheckStep, h1, h2, windowsNrfutilInstalled, hl, hs,
              windowsEnsureNRFUtilPath, hc]
            exact h
          · rcases h with hp | hp
            · subst hp
              simp [windowsCheckStep, h1, h2, windowsNrfutilInstalled, hl, hs,
                windowsEnsureNRFUtilPath, hc]
            · subst hp
              exact absurd (goContainsCI_prepend (winNrfutilDir env) env.initPath) hc
        · simp [windowsCheckStep, h1, h2, windowsNrfutilInstalled, hl, hs]
          exact h
    · simp [windowsCheckStep, h1, h2]
      exact h

/-- Helper: the PATH invariant is preserved by the whole prerequisite fold. -/
theorem windowsCheck_foldl_path (env : WinCheckEnv) :
    ∀ (deps : List String) (acc : List MissingDependency × String),
      (acc.2 = env.initPath ∨ acc.2 = winNrfutilDir env ++ ";" ++ env.initPath) →
      ((deps.foldl (windowsCheckStep env) acc).2 = env.initPath ∨
       (deps.foldl (windowsCheckStep env) acc).2 =
         winNrfutilDir env ++ ";" ++ env.initPath) := by
  intro deps
  induction deps with
  | nil => intro acc h; simpa using h
  | cons dep rest ih =>
    intro acc h
    rw [List.foldl_cons]
    exact ih (windowsCheckStep env acc dep) (windowsCheckStep_path env acc dep h)

/-- C8 amended: `CheckPrerequisites` leaves the process environment unchanged
except that on Windows, when nrfutil is found at its default install location
while absent from PATH, the nrfutil directory is prepended to PATH once: for
every input the final PATH is the original one or that single prepend. -/
theorem windows_checkPrerequisites_path_frame (env : WinCheckEnv) (deps : List String) :
    (windowsCheckPrerequisites env deps).2 = env.initPath ∨
    (windowsCheckPrerequisites env deps).2 = winNrfutilDir env ++ ";" ++ env.initPath := by
  unfold windowsCheckPrerequisites
  exact windowsCheck_foldl_path env deps _ (Or.inl rfl)

/-- C9: whenever FlashBoard succeeds on any platform, the returned result
carries the caller-supplied device name when non-empty and the placeholder
`your-device` otherwise — never the empty string — and its hex-file path is
left empty. -/
theorem flash_result_device_name (o t b n : String) :
    (∀ (env : DarwinEnv) (r : FlashResult),
      (darwinFlashBoard env o t b n).2 = .ok r →
      r.deviceName = (if n = "" then "your-device" else n) ∧
      r.deviceName ≠ "" ∧ r.hexFilePath = "") ∧
    (∀ (env : LinuxEnv) (r : FlashResult),
      (linuxFlashBoard env o t b n).2 = .ok r →
      r.deviceName = (if n = "" then "your-device" else n) ∧
      r.deviceName ≠ "" ∧ r.hexFilePath = "") ∧
    (∀ (env : WinFlashEnv) (r : FlashResult),
      (windowsFlashBoard env o t b n).2 = .ok r →
      r.deviceName = (if n = "" then "your-device" else n) ∧
      r.deviceName ≠ "" ∧ r.hexFilePath = "") := by
  have hname : ∀ r : FlashResult,
      r = { deviceName := if n = "" then "your-device" else n, hexFilePath := "" } →
      r.deviceName = (if n = "" then "your-device" else n) ∧
      r.deviceName ≠ "" ∧ r.hexFilePath = "" := by
    intro r hr
    subst hr
    refine ⟨rfl, ?_, rfl⟩
    by_cases hn : n = ""
    · simp [hn]
    · simp [hn]
  refine ⟨?_, ?_, ?_⟩
  · intro env r h
    unfold darwinFlashBoard at h
    cases hlp : env.lookPath "uv" with
    | none => rw [hlp] at h; exact absurd h (by simp)
    | some q =>
      rw [hlp] at h
      cases hre : env.flashRunErr with
      | some msg => rw [hre] at h; exact absurd h (by simp)
      | none =>
        rw [hre] at h
        simp only [Except.ok.injEq] at h
        exact hname r h.symm
  · intro env r h
    unfold linuxFlashBoard at h
    cases hlp : env.lookPath "uv" with
    | none => rw [hlp] at h; exact absurd h (by simp)
    | some q =>
      rw [hlp] at h
      cases hre : env.flashRunErr with
      | some msg => rw [hre] at h; exact absurd h (by simp)
      | none =>
        rw [hre] at h
        simp only [Except.ok.injEq] at h
        exact hname r h.symm
  · intro env r h
    unfold windowsFlashBoard at h
    cases hfo : findUVPath env.uvEnv with
    | error e => rw [hfo] at h; exact absurd h (by simp)
    | ok p =>
      rw [hfo] at h
      cases hre : env.runErr with
      | some msg => rw [hre] at h; exact absurd h (by simp)
      | none =>
        rw [hre] at h
        simp only [Except.ok.injEq] at h
        exact hname r h.symm

/-- C9 witness: successful darwin flash with an empty device name yields the
placeholder. -/
theorem flash_result_device_name_witness :
    (FlashResult.mk "your-device" "").deviceName ≠ "" :=
  (((flash_result_device_name "o" "t" "b" "").1) dEnvAll ⟨"your-device", ""⟩ rfl).2.1

/-- Dependency names recognized by the macOS prerequisite check. -/
def darwinRecognizedDeps : List String := ["uv", "nrfutil", "segger-jlink"]

/-- Dependency names recognized by the Windows prerequisite check. -/
def windowsRecognizedDeps : List String := ["uv", "nrfutil"]

/-- Dependency names recognized by the Linux prerequisite check. -/
def linuxRecognizedDeps : List String := ["uv", "segger-jlink"]

/-- Helper: flatMap ignores filtered-out elements that map to nil. -/
theorem flatMap_filter_eq {α β : Type} (p : α → Bool) (f : α → List β)
    (h : ∀ a, p a = false → f a = []) :
    ∀ l : List α, (l.filter p).flatMap f = l.flatMap f := by
  intro l
  induction l with
  | nil => rfl
  | cons a l ih =>
    by_cases hp : p a = true
    · simp [List.filter_cons, hp, ih]
    · have hp' : p a = false := by simpa using hp
      simp [List.filter_cons, hp', h a hp', ih]

/-- Helper: foldl ignores filtered-out elements that act as the identity. -/
theorem foldl_filter_eq {α β : Type} (p : α → Bool) (f : β → α → β)
    (h : ∀ acc a, p a = false → f acc a = acc) :
    ∀ (l : List α) (acc : β), (l.filter p).foldl f acc = l.foldl f acc := by
  intro l
  induction l with
  | nil => intro acc; rfl
  | cons a l ih =>
    intro acc
    by_cases hp : p a = true
    · simp [List.filter_cons, hp, ih]
    · have hp' : p a = false := by simpa using hp
      simp [List.filter_cons, hp', h acc a hp', ih]

/-- Helper: the Linux prerequisite loop ignores unrecognized names. -/
theorem linuxCheckLoop_filter (env : LinuxEnv) :
    ∀ (l : List String) (missing : List MissingDependency) (out : List String),
      linuxCheckLoop env (l.filter (fun d => decide (d ∈ linuxRecognizedDeps))) missing out =
        linuxCheckLoop env l missing out := by
  intro l
  induction l with
  | nil => intro missing out; rfl
  | cons d rest ih =>
    intro missing out
    by_cases h1 : d = "uv"
    · subst h1
      rw [List.filter_cons]
      rw [show (decide ("uv" ∈ linuxRecognizedDeps)) = true from rfl]
      simp only [if_true]
      by_cases hl : ((env.lookPath "uv").isSome : Bool) = true
      · simp only [linuxCheckLoop, if_true, hl, ite_true]
        exact ih missing out
      · simp only [linuxCheckLoop, if_true, hl, Bool.false_eq_true, ite_false]
        exact ih (missing ++ [⟨"uv", "Not installed"⟩]) out
    · by_cases h2 : d = "segger-jlink"
      · subst h2
        rw [List.filter_cons]
        rw [show (decide ("segger-jlink" ∈ linuxRecognizedDeps)) = true from rfl]
        simp only [if_true]
        by_cases hl : ((env.lookPath "JLinkExe").isSome : Bool) = true
        · simp only [linuxCheckLoop, if_true, hl, ite_true,
            show ("segger-jlink" : String) = "uv" ↔ False by simp, if_false]
          exact ih missing out
        · simp [linuxCheckLoop, hl]
      · have hd : (decide (d ∈ linuxRecognizedDeps)) = false := by
          simp [linuxRecognizedDeps, h1, h2]
        rw [List.filter_cons, hd]
        simp only [Bool.false_eq_true, if_false]
        have : linuxCheckLoop env (d :: rest) missing out =
            linuxCheckLoop env rest missing out := by
          simp [linuxCheckLoop, h1, h2]
        rw [this]
        exact ih missing out

/-- C10: on every platform the prerequisite check silently ignores
unrecognized dependency names — filtering the input down to the platform's
recognized set changes nothing — and on macOS every reported missing entry is
named after a recognized dependency or the package manager. -/
theorem check_prerequisites_ignores_unrecognized (deps : List String) :
    (∀ env : DarwinEnv,
      darwinCheckPrerequisites env deps =
        darwinCheckPrerequisites env
          (deps.filter (fun d => decide (d ∈ darwinRecognizedDeps))) ∧
      ∀ m ∈ (darwinCheckPrerequisites env deps).1,
        m.name ∈ "Homebrew" :: darwinRecognizedDeps) ∧
    (∀ env : WinCheckEnv,
      windowsCheckPrerequisites env deps =
        windowsCheckPrerequisites env
          (deps.filter (fun d => decide (d ∈ windowsRecognizedDeps)))) ∧
    (∀ env : LinuxEnv,
      linuxCheckPrerequisites env deps =
        linuxCheckPrerequisites env
          (deps.filter (fun d => decide (d ∈ linuxRecognizedDeps)))) := by
  refine ⟨?_, ?_, ?_⟩
  · intro env
    constructor
    · unfold darwinCheckPrerequisites
      rw [flatMap_filter_eq]
      intro a ha
      have hmem : a ∉ darwinRecognizedDeps := by
        intro hc
        rw [decide_eq_true hc] at ha
        cases ha
      simp only [darwinRecognizedDeps, List.mem_cons, List.not_mem_nil, or_false,
        not_or] at hmem
      simp [darwinCheckDep, hmem.1, hmem.2.1, hmem.2.2]
    · intro m hm
      unfold darwinCheckPrerequisites at hm
      rcases List.mem_append.mp hm with hb | hf
      · by_cases hbrew : (darwinCommandExists env "brew") = true
        · rw [if_pos hbrew] at hb
          exact absurd hb (List.not_mem_nil m)
        · rw [if_neg hbrew] at hb
          rcases List.mem_cons.mp hb with heq | hnil
          · subst heq; simp
          · exact absurd hnil (List.not_mem_nil m)
      · rcases List.mem_flatMap.mp hf with ⟨d, _, hmd⟩
        unfold darwinCheckDep at hmd
        by_cases h1 : d = "uv"
        · rw [if_pos h1] at hmd
          by_cases hl : (darwinCommandExists env "uv") = true
          · rw [if_pos hl] at hmd; exact absurd hmd (List.not_mem_nil m)
          · rw [if_neg hl] at hmd
            rcases List.mem_cons.mp hmd with heq | hnil
            · subst heq; simp [darwinRecognizedDeps]
            · exact absurd hnil (List.not_mem_nil m)
        · rw [if_neg h1] at hmd
          by_cases h2 : d = "nrfutil"
          · rw [if_pos h2] at hmd
            by_cases hl : (darwinCommandExists env "nrfutil") = true
            · rw [if_pos hl] at hmd; exact absurd hmd (List.not_mem_nil m)
            · rw [if_neg hl] at hmd
              rcases List.mem_cons.mp hmd with heq | hnil
              · subst heq; simp [darwinRecognizedDeps]
              · exact absurd hnil (List.not_mem_nil m)
          · rw [if_neg h2] at hmd
            by_cases h3 : d = "segger-jlink"
            · rw [if_pos h3] at hmd
              by_cases hl : (darwinCommandExists env "JLinkExe") = true
              · rw [if_pos hl] at hmd; exact absurd hmd (List.not_mem_nil m)
              · rw [if_neg hl] at hmd
                rcases List.mem_cons.mp hmd with heq | hnil
                · subst heq; simp [darwinRecognizedDeps]
                · exact absurd hnil (List.not_mem_nil m)
            · rw [if_neg h3] at hmd
              exact absurd hmd (List.not_mem_nil m)
  · intro env
    unfold windowsCheckPrerequisites
    rw [foldl_filter_eq]
    intro acc a ha
    obtain ⟨missing, path⟩ := acc
    have hmem : a ∉ windowsRecognizedDeps := by
      intro hc
      rw [decide_eq_true hc] at ha
      cases ha
    simp only [windowsRecognizedDeps, List.mem_cons, List.not_mem_nil, or_false,
      not_or] at hmem
    simp [windowsCheckStep, hmem.1, hmem.2]
  · intro env
    unfold linuxCheckPrerequisites
    by_cases hpm : env.pkgManager = LinuxPM.unknown
    · simp [hpm]
    · simp only [hpm, if_false]
      exact (linuxCheckLoop_filter env deps [] []).symm

/-- C10 witness: an unrecognized dependency name produces neither a missing
entry nor an error on macOS. -/
theorem check_prerequisites_ignores_unrecognized_witness :
    darwinCheckPrerequisites dEnvAll ["uv", "mystery-tool"] =
      darwinCheckPrerequisites dEnvAll ["uv"] := by
  have h := ((check_prerequisites_ignores_unrecognized ["uv", "mystery-tool"]).1 dEnvAll).1
  exact h
